import Mathlib

/-!
Verification of the URL-analyse decision pipeline.

Shallow embedding of the core decision pipeline of the URL-analyse
repository: the rule engine (`src/rules/rule_engine.py`,
`src/rules/rule_loader.py`), the fast-response parser
(`src/analyzer/response_analyse.py`), the vector store and RAG engine
(`src/rag/vector_store.py`, `src/rag/rag_engine.py`), the hybrid
detector (`src/analyzer/hybrid_detector.py`), the per-file batch loop
(`src/until/until.py`) and the statistics engine
(`src/analyzer/result_statistics.py`).

Modelling conventions:
* Python strings are `String`, floats are `ℚ` (similarity scores and
  metric values are exact here; the Python floats introduce no NaN on
  the guarded paths we verify).
* A compiled regular expression is an opaque search function
  `String → Option String` returning the matched text, since the regex
  engine is the Python standard library, external to the repository.
  `re.compile` itself is modelled as a parameter
  `String → Option (String → Option String)` where `none` models a
  pattern that fails to compile (raises `re.error`).
* Exceptions are modelled with `Except`; an unbound local variable read
  (Python `NameError`/`UnboundLocalError`) is `DetectErr.nameError`.
* `np.argsort` is modelled as a stable ascending argsort (ties keep
  index order), realised with `List.insertionSort` over a lexicographic
  order on (value, index).
* Wall-clock timing (`perf_counter`) and console printing are dropped;
  no verified claim depends on them.
-/

namespace UrlAnalyse

/-! ### Python string primitives

The Python string operations used by the pipeline (`str.strip`,
`str.split`, `in`, indexing) are modelled over the character list of a
`String`, mirroring Python's semantics directly. -/

/-- The ASCII whitespace stripped by Python's `str.strip()`. -/
def pyIsSpace (c : Char) : Bool :=
  c = ' ' || c = '\t' || c = '\n' || c = '\x0d' || c = '\x0b' || c = '\x0c'

/-- Python `s.strip()`: drop leading and trailing whitespace. -/
def pyStrip (s : String) : String :=
  ⟨((s.data.dropWhile pyIsSpace).reverse.dropWhile pyIsSpace).reverse⟩

/-- Python `c in s` for a single character. -/
def pyContains (s : String) (c : Char) : Bool :=
  s.data.contains c

/-- Python `s.split(sep)` for a one-character separator, over character
lists: always returns at least one (possibly empty) piece. -/
def pySplitChars (sep : Char) : List Char → List (List Char)
  | [] => [[]]
  | c :: cs =>
    let rest := pySplitChars sep cs
    if c = sep then [] :: rest
    else
      match rest with
      | [] => [[c]]
      | piece :: pieces => (c :: piece) :: pieces

/-- Python `s.split(sep)` for a one-character separator. -/
def pySplit (s : String) (sep : Char) : List String :=
  (pySplitChars sep s.data).map String.mk

/-- Python `s[0]` as a one-character string (the caller guards against
the empty string). -/
def pyFirstChar (s : String) : String :=
  match s.data with
  | [] => ""
  | c :: _ => ⟨[c]⟩

/-- Python truthiness of a string: non-empty. -/
def pyNonEmpty (s : String) : Bool :=
  !s.data.isEmpty

/-! ### Response parser (`src/analyzer/response_analyse.py`) -/

/-- `ResponseAnalyzer.parse_fast_detection_response`: parse the model's
fast-detection answer, canonical forms `"0"` and `"1|attack_type"`.
Mirrors the source: strip; if a `'|'` is present split on it, else take
the first character (empty input defaults to `"0"`); finally force
`predicted` into `{"0","1"}` with default `"0"`. -/
def parseFastDetectionResponse (response : String) : String × String :=
  let response := pyStrip response
  let pa :=
    if pyContains response '|' then
      let parts := pySplit response '|'
      let predicted := pyStrip (parts.getD 0 "")
      let attack_type :=
        if parts.length > 1 then pyStrip (parts.getD 1 "") else "unknown"
      (predicted, attack_type)
    else
      let predicted :=
        if pyNonEmpty response then pyFirstChar response else "0"
      let attack_type := if predicted = "0" then "none" else "unknown"
      (predicted, attack_type)
  let predicted := if pa.1 = "0" ∨ pa.1 = "1" then pa.1 else "0"
  (predicted, pa.2)

/-! ### Rule engine (`src/rules/rule_engine.py`) -/

/-- The dictionary returned by `Rule.match` on a hit. -/
structure MatchInfo where
  rule_id : String
  rule_name : String
  attack_type : String
  severity : String
  matched_text : String
  description : String
deriving Repr, DecidableEq, Inhabited

/-- A loaded rule.  `search` is the compiled pattern's `.search`,
returning the matched text (`match.group(0)`) on a hit. -/
structure Rule where
  rule_id : String
  name : String
  search : String → Option String
  attack_type : String
  severity : String
  description : String

/-- `Rule.match`: run the pattern against the URL and build the match
dictionary. -/
def Rule.matchUrl (r : Rule) (url : String) : Option MatchInfo :=
  (r.search url).map fun t =>
    { rule_id := r.rule_id
      rule_name := r.name
      attack_type := r.attack_type
      severity := r.severity
      matched_text := t
      description := r.description }

/-- `RuleEngine`: two ordered rule lists and an enabled flag. -/
structure RuleEngine where
  normal_rules : List Rule
  anomalous_rules : List Rule
  enabled : Bool

/-- `RuleEngine.detect`: anomalous rules first, then normal rules, first
match wins; disabled engine defers everything. -/
def RuleEngine.detect (e : RuleEngine) (url : String) :
    Option String × List MatchInfo × String :=
  if !e.enabled then (none, [], "none")
  else
    match e.anomalous_rules.findSome? (fun r => r.matchUrl url) with
    | some info => (some "1", [info], "anomalous")
    | none =>
      match e.normal_rules.findSome? (fun r => r.matchUrl url) with
      | some info => (some "0", [info], "normal")
      | none => (none, [], "none")

/-- The dictionary returned by `RuleEngine.check`. -/
structure CheckResult where
  matched : Bool
  is_normal : Option Bool
  rules : List MatchInfo

/-- `RuleEngine.check`: compatibility wrapper over `detect`. -/
def RuleEngine.check (e : RuleEngine) (url : String) : CheckResult :=
  let d := e.detect url
  match d.2.2 with
  | "normal" => { matched := true, is_normal := some true, rules := d.2.1 }
  | "anomalous" => { matched := true, is_normal := some false, rules := d.2.1 }
  | _ => { matched := false, is_normal := none, rules := [] }

/-! ### Rule loading (`src/rules/rule_loader.py`) -/

/-- One entry of a YAML rule file; `attack_type` and `severity` are
`Option` because the loader supplies class-specific defaults via
`dict.get`. -/
structure RuleConfig where
  id : String := ""
  name : String := ""
  pattern : String := ""
  attack_type : Option String := none
  severity : Option String := none
  description : String := ""

/-- The external `re.compile`: maps a pattern to a search function, or
`none` when the pattern does not compile (Python raises `re.error`). -/
abbrev ReCompile := String → Option (String → Option String)

/-- `Rule.__init__` via a compile function: building a rule raises
(returns `none`) exactly when its pattern fails to compile. -/
def mkRule (compile : ReCompile) (rule_id name pattern attack_type
    severity description : String) : Option Rule :=
  (compile pattern).map fun search =>
    { rule_id := rule_id, name := name, search := search
      attack_type := attack_type, severity := severity
      description := description }

/-- `RuleEngine.load_normal_rules`: append rules one by one; the first
rule whose pattern fails to compile raises, so the loop stops there.
Returns the rules appended before the failure and whether the whole
list loaded (`true` = no exception). -/
def loadNormalRules (compile : ReCompile) :
    List RuleConfig → List Rule × Bool
  | [] => ([], true)
  | c :: cs =>
    match mkRule compile c.id c.name c.pattern (c.attack_type.getD "none")
        (c.severity.getD "safe") c.description with
    | none => ([], false)
    | some r =>
      let rest := loadNormalRules compile cs
      (r :: rest.1, rest.2)

/-- `RuleEngine.load_anomalous_rules`: same loop with the anomalous
defaults (`attack_type='unknown'`, `severity='medium'`). -/
def loadAnomalousRules (compile : ReCompile) :
    List RuleConfig → List Rule × Bool
  | [] => ([], true)
  | c :: cs =>
    match mkRule compile c.id c.name c.pattern (c.attack_type.getD "unknown")
        (c.severity.getD "medium") c.description with
    | none => ([], false)
    | some r =>
      let rest := loadAnomalousRules compile cs
      (r :: rest.1, rest.2)

/-- Result of `load_rule_engine`: the engine plus whether each rule-set
load raised (the loader catches the exception, prints a warning and
continues, so a failure is never fatal). -/
structure LoadOutcome where
  engine : RuleEngine
  normal_load_failed : Bool
  anomalous_load_failed : Bool

/-- `load_rule_engine` (`src/rules/rule_loader.py`): a disabled config
yields an empty disabled engine; otherwise both rule files are loaded,
each inside its own try/except, so rules appended before a mid-file
exception stay in the engine and the other file still loads. -/
def loadRuleEngine (compile : ReCompile) (enabled : Bool)
    (normal_configs anomalous_configs : List RuleConfig) : LoadOutcome :=
  if !enabled then
    { engine := { normal_rules := [], anomalous_rules := [], enabled := false }
      normal_load_failed := false, anomalous_load_failed := false }
  else
    let nres := loadNormalRules compile normal_configs
    let ares := loadAnomalousRules compile anomalous_configs
    { engine := { normal_rules := nres.1, anomalous_rules := ares.1
                  enabled := true }
      normal_load_failed := !nres.2
      anomalous_load_failed := !ares.2 }

/-! ### Vector store (`src/rag/vector_store.py`) -/

/-- One metadata entry kept in lock-step with the vector index.  URL
cases fill `url`/`label`, knowledge chunks fill `attack_id`/`source`;
absent dictionary keys read as `""` (`dict.get` with default). -/
structure Meta where
  type : String := ""
  url : String := ""
  label : String := ""
  attack_id : String := ""
  source : String := ""
deriving Repr, DecidableEq, Inhabited

/-- The FAISS-backed store: the embedder (`SentenceTransformer.encode`
with normalisation, external), the inner-product index contents
(`none` until built) and the parallel metadata list. -/
structure VectorStore where
  encode : String → List ℚ
  index : Option (List (List ℚ))
  metadata : List Meta

/-- `np.dot` of two vectors. -/
def dotQ (xs ys : List ℚ) : ℚ := (List.zipWith (· * ·) xs ys).sum

/-- The order computed by a stable ascending `np.argsort` on `xs`:
position `i` comes before `j` when its value is smaller, or on equal
values when `i ≤ j`. -/
def argRel (xs : List ℚ) (i j : ℕ) : Prop :=
  xs.getD i 0 < xs.getD j 0 ∨ (xs.getD i 0 = xs.getD j 0 ∧ i ≤ j)

instance (xs : List ℚ) : DecidableRel (argRel xs) := fun i j => by
  unfold argRel; infer_instance

instance (xs : List ℚ) : IsTotal ℕ (argRel xs) where
  total i j := by
    unfold argRel
    rcases lt_trichotomy (xs.getD i 0) (xs.getD j 0) with h | h | h
    · exact Or.inl (Or.inl h)
    · rcases Nat.le_total i j with hle | hle
      · exact Or.inl (Or.inr ⟨h, hle⟩)
      · exact Or.inr (Or.inr ⟨h.symm, hle⟩)
    · exact Or.inr (Or.inl h)

instance (xs : List ℚ) : IsTrans ℕ (argRel xs) where
  trans i j k hij hjk := by
    unfold argRel at *
    rcases hij with h1 | ⟨e1, l1⟩
    · rcases hjk with h2 | ⟨e2, _⟩
      · exact Or.inl (h1.trans h2)
      · exact Or.inl (e2 ▸ h1)
    · rcases hjk with h2 | ⟨e2, l2⟩
      · exact Or.inl (e1 ▸ h2)
      · exact Or.inr ⟨e1.trans e2, l1.trans l2⟩

/-- `np.argsort` modelled as a stable ascending argsort over the index
range of `xs`. -/
def argsortAsc (xs : List ℚ) : List ℕ :=
  List.insertionSort (argRel xs) (List.range xs.length)

/-- The common body of `VectorStore.search_in_url_cases_only` and
`VectorStore.search_in_knowledge_only` (the two source methods are
textual duplicates differing only in the partition tag): restrict the
search to `tag`-tagged positions, score by inner product against the
encoded query, argsort ascending, reverse, take `top_k`, and map
positions back to original indices with their scores. -/
def VectorStore.searchPartition (s : VectorStore) (tag : String)
    (query_text : String) (top_k : ℕ) : List (ℕ × ℚ) :=
  match s.index with
  | none => []
  | some vecs =>
    let part_indices := (List.range s.metadata.length).filter
      (fun i => (s.metadata.getD i default).type == tag)
    if part_indices.isEmpty then []
    else
      let query_embedding := s.encode query_text
      let part_vectors := part_indices.map (fun i => vecs.getD i [])
      let similarities := part_vectors.map (fun v => dotQ query_embedding v)
      let top_indices := (argsortAsc similarities).reverse.take top_k
      top_indices.map (fun idx =>
        (part_indices.getD idx 0, similarities.getD idx 0))

/-- `VectorStore.search_in_url_cases_only`. -/
def VectorStore.searchInUrlCasesOnly (s : VectorStore) (query_text : String)
    (top_k : ℕ) : List (ℕ × ℚ) :=
  s.searchPartition "url_case" query_text top_k

/-- `VectorStore.search_in_knowledge_only`. -/
def VectorStore.searchInKnowledgeOnly (s : VectorStore) (query_text : String)
    (top_k : ℕ) : List (ℕ × ℚ) :=
  s.searchPartition "knowledge" query_text top_k

/-! ### RAG engine (`src/rag/rag_engine.py`) -/

/-- A retrieved similar case as assembled by
`RAGEngine.retrieve_similar_cases`. -/
structure Case where
  url : String
  label : String
  similarity_score : ℚ
deriving Repr, DecidableEq

/-- `RAGEngine`: holds the vector store once `_init_vector_store` ran;
`none` models a construction where loading was skipped. -/
structure RAGEngine where
  vector_store : Option VectorStore

/-- `RAGEngine.retrieve_similar_cases`: guard on store and index, search
the case partition, then join each hit with its metadata entry. -/
def RAGEngine.retrieveSimilarCases (e : RAGEngine) (url : String)
    (top_k : ℕ) : List Case :=
  match e.vector_store with
  | none => []
  | some vs =>
    if vs.index.isNone then []
    else
      (vs.searchInUrlCasesOnly url top_k).map fun p =>
        let case_data := vs.metadata.getD p.1 default
        { url := case_data.url, label := case_data.label
          similarity_score := p.2 }

/-! ### Hybrid detector (`src/analyzer/hybrid_detector.py`) -/

/-- Recognized configuration surface consumed by
`HybridDetector.__init__`; structure defaults model the `dict.get`
defaults in the source. -/
structure FastDetectionConfig where
  use_rag : Bool := false

/-- `config['rag']['fast_detection']` with its `dict.get` defaults. -/
structure RagFastConfig where
  top_k : ℕ := 3
  similarity_threshold : ℚ := 0.85

/-- `config['rag']` as read by the detector. -/
structure RagConfig where
  enabled : Bool := false
  fast_detection : RagFastConfig := {}

/-- The slice of the configuration dictionary the detector reads. -/
structure Config where
  fast_detection : FastDetectionConfig := {}
  rag : RagConfig := {}

/-- Python runtime errors that can escape `HybridDetector.detect`;
`nameError` is the read of a never-assigned local variable. -/
inductive DetectErr where
  | nameError
deriving Repr, DecidableEq

/-- The result dictionary produced by `HybridDetector.detect` (and
completed with `true_label` by the batch loop).  `elapsed_time_sec` is
wall-clock and is not modelled. -/
structure DetectionResult where
  url : String
  predicted : String
  attack_type : String
  rule_matched : List MatchInfo
  detection_method : String
  reason : String
  similar_cases : List Case := []
  confidence : ℚ := 0
  true_label : String := ""
deriving Repr, DecidableEq

/-- The dictionary returned by `HybridDetector._check_rag_similarity`;
fields absent from the Python dictionary read as the defaults used at
the call sites (`.get('matched')` falsy, `.get('similar_cases', [])`). -/
structure RagCheck where
  matched : Bool := false
  predicted : String := ""
  attack_type : String := ""
  similar_cases : List Case := []
  confidence : ℚ := 0
  reason : String := ""

/-- The hybrid detector: model, rule engine, RAG switch and engine, and
the `rag_config` thresholds (set only when RAG is active; defaults are
never read otherwise because `_check_rag_similarity` guards on the
engine first). -/
structure HybridDetector where
  model : String → String
  rule_engine : RuleEngine
  use_rag : Bool
  rag_engine : Option RAGEngine
  rag_top_k : ℕ := 3
  rag_threshold : ℚ := 0.85

/-- `HybridDetector.__init__`: `use_rag` comes from
`model.fast_detection.use_rag`; the RAG engine is constructed only when
that flag and `rag.enabled` are both set.  Constructing `RAGEngine`
loads the vector store from disk, so the loaded store is a parameter. -/
def HybridDetector.ofConfig (model : String → String)
    (rule_engine : RuleEngine) (config : Config)
    (loadedStore : Option VectorStore) : HybridDetector :=
  let use_rag := config.fast_detection.use_rag
  if use_rag && config.rag.enabled then
    { model := model, rule_engine := rule_engine, use_rag := use_rag
      rag_engine := some { vector_store := loadedStore }
      rag_top_k := config.rag.fast_detection.top_k
      rag_threshold := config.rag.fast_detection.similarity_threshold }
  else
    { model := model, rule_engine := rule_engine, use_rag := use_rag
      rag_engine := none }

/-- `HybridDetector._check_rag_similarity`: retrieve cases and compare
the single best one against the threshold.  On a hit the verdict is
`"1"` iff the best label is exactly `'attack'` and the attack type is
`'similar_' + label`. -/
def HybridDetector.checkRagSimilarity (d : HybridDetector) (url : String) :
    RagCheck :=
  match d.rag_engine with
  | none => { matched := false }
  | some eng =>
    let top_k := d.rag_top_k
    let threshold := d.rag_threshold
    let similar_cases := eng.retrieveSimilarCases url top_k
    match similar_cases with
    | [] => { matched := false }
    | best :: _ =>
      if best.similarity_score ≥ threshold then
        { matched := true
          predicted := if best.label = "attack" then "1" else "0"
          attack_type := "similar_" ++ best.label
          similar_cases := similar_cases
          confidence := best.similarity_score
          reason := "与已知" ++ best.label ++ "案例高度相似" }
      else
        { matched := false, similar_cases := similar_cases }

/-- The plain fast-detection prompt (no RAG context). -/
def plainFastPrompt (url : String) : String :=
  "判断以下URL是否为攻击行为。仅回答:\n- \"0\" 表示正常访问\n- \"1|攻击类型\" 表示攻击行为\n\nURL: "
    ++ url ++ "\n\n回答:"

/-- `HybridDetector._build_rag_enhanced_prompt`: the fast prompt with up
to three retrieved cases inlined (numeric percent formatting
abstracted by `toString`). -/
def buildRagEnhancedPrompt (url : String) (similar_cases : List Case) :
    String :=
  let header := "判断以下URL是否为攻击行为。\n\nURL: " ++ url ++ "\n\n参考相似案例:\n"
  let body := String.join ((similar_cases.take 3).enum.map fun p =>
    let label_cn := if p.2.label = "attack" then "攻击" else "正常"
    toString (p.1 + 1) ++ ". " ++ label_cn ++ " (相似度 "
      ++ toString p.2.similarity_score ++ "): " ++ p.2.url.take 60 ++ "...\n")
  header ++ body
    ++ "\n请根据以上相似案例和URL特征,仅回答:\n- \"0\" 表示正常访问\n- \"1|攻击类型\" 表示攻击行为\n\n回答:"

/-- Stage 3 of `HybridDetector.detect` (model inference).  The local
`similar_cases` is assigned only inside the `use_rag and rag_engine`
branch (`Option.some`); when `use_rag` is true the result-building line
`'model_with_rag' if (self.use_rag and similar_cases) else 'model'`
reads it, and an unassigned read raises `NameError`.  The second
component counts classifier calls. -/
def HybridDetector.modelStage (d : HybridDetector) (url : String) :
    Except DetectErr DetectionResult × ℕ :=
  let similar_cases : Option (List Case) :=
    if d.use_rag && d.rag_engine.isSome then
      some ((d.checkRagSimilarity url).similar_cases)
    else none
  let prompt :=
    match similar_cases with
    | some cs =>
      if cs.isEmpty then plainFastPrompt url else buildRagEnhancedPrompt url cs
    | none => plainFastPrompt url
  let response := d.model prompt
  let pa := parseFastDetectionResponse response
  let reason :=
    if pa.1 = "1" then "模型判定: " ++ pa.2 else "模型判定: 正常访问"
  if d.use_rag then
    match similar_cases with
    | none => (.error .nameError, 1)
    | some cs =>
      (.ok { url := url, predicted := pa.1, attack_type := pa.2
             rule_matched := []
             detection_method := if !cs.isEmpty then "model_with_rag" else "model"
             reason := reason
             similar_cases := if !cs.isEmpty then cs else [] }, 1)
  else
    (.ok { url := url, predicted := pa.1, attack_type := pa.2
           rule_matched := [], detection_method := "model"
           reason := reason }, 1)

/-- `HybridDetector.detect`: rule engine first, then the RAG similarity
shortcut, then model inference.  The second component counts classifier
calls. -/
def HybridDetector.detect (d : HybridDetector) (url : String) :
    Except DetectErr DetectionResult × ℕ :=
  let rule_result := d.rule_engine.check url
  if rule_result.matched then
    if rule_result.is_normal.getD false then
      (.ok { url := url, predicted := "0", attack_type := "none"
             rule_matched := rule_result.rules
             detection_method := "rule_normal"
             reason := "匹配正常规则: "
               ++ ((rule_result.rules.head?.map (·.rule_name)).getD "") }, 0)
    else
      (.ok { url := url, predicted := "1"
             attack_type := ((rule_result.rules.head?.map
               (·.attack_type)).getD "unknown")
             rule_matched := rule_result.rules
             detection_method := "rule_anomalous"
             reason := "触发异常规则: "
               ++ ((rule_result.rules.head?.map (·.rule_name)).getD "") }, 0)
  else
    if d.use_rag && d.rag_engine.isSome then
      let rag_result := d.checkRagSimilarity url
      if rag_result.matched then
        (.ok { url := url, predicted := rag_result.predicted
               attack_type := rag_result.attack_type
               rule_matched := []
               similar_cases := rag_result.similar_cases
               detection_method := "rag_similarity"
               confidence := rag_result.confidence
               reason := rag_result.reason }, 0)
      else d.modelStage url
    else d.modelStage url

/-! ### Batch loop (`src/until/until.py`) -/

/-- The file-reading step of `process_file`: keep the lines whose strip
is non-empty, stripped. -/
def cleanLines (rawLines : List String) : List String :=
  (rawLines.filter (fun l => pyNonEmpty (pyStrip l))).map pyStrip

/-- The per-URL loop of `process_file`: call `query_func` on each URL in
order, stamp the true label, and collect the results.  There is no
try/except around the call, so an exception propagates and the partial
`results` list is lost. -/
def processLines (lines : List String) (label : String)
    (query_func : String → Except DetectErr DetectionResult) :
    Except DetectErr (List DetectionResult) :=
  match lines with
  | [] => .ok []
  | url :: rest => do
    let res ← query_func url
    let res := { res with true_label := if label = "attack" then "1" else "0" }
    let results ← processLines rest label query_func
    return res :: results

/-- `process_file` on the contents of an existing file (file-system
lookup dropped; a missing file returns `[]` before this loop). -/
def processFile (rawLines : List String) (label : String)
    (query_func : String → Except DetectErr DetectionResult) :
    Except DetectErr (List DetectionResult) :=
  processLines (cleanLines rawLines) label query_func

/-! ### Statistics engine (`src/analyzer/result_statistics.py`) -/

/-- `self.tp` of `ResultStatistics.__init__`. -/
def tpCount (rs : List DetectionResult) : ℕ :=
  rs.countP (fun r => r.true_label == "1" && r.predicted == "1")

/-- `self.tn` of `ResultStatistics.__init__`. -/
def tnCount (rs : List DetectionResult) : ℕ :=
  rs.countP (fun r => r.true_label == "0" && r.predicted == "0")

/-- `self.fp` of `ResultStatistics.__init__`. -/
def fpCount (rs : List DetectionResult) : ℕ :=
  rs.countP (fun r => r.true_label == "0" && r.predicted == "1")

/-- `self.fn` of `ResultStatistics.__init__`. -/
def fnCount (rs : List DetectionResult) : ℕ :=
  rs.countP (fun r => r.true_label == "1" && r.predicted == "0")

/-- The metrics dictionary built by
`ResultStatistics.calculate_metrics`; the dictionary key `'fn'` is
spelled `fneg` and `'recall'` is spelled `recall'` because `fn` and
`recall` are Lean keywords here. -/
structure Metrics where
  total : ℕ
  tp : ℕ
  tn : ℕ
  fp : ℕ
  fneg : ℕ
  accuracy : ℚ
  recall' : ℚ
  precision : ℚ
  f1_score : ℚ
  fpr : ℚ
  fnr : ℚ
deriving Repr, DecidableEq

/-- `ResultStatistics.calculate_metrics`: every derived rate starts at
`0.0` and is overwritten only when its denominator is positive; the
rates are percentages (the source multiplies by 100). -/
def calculateMetrics (rs : List DetectionResult) : Metrics :=
  let total := rs.length
  let tp := tpCount rs
  let tn := tnCount rs
  let fp := fpCount rs
  let fneg := fnCount rs
  let accuracy : ℚ :=
    if total > 0 then ((tp : ℚ) + (tn : ℚ)) / (total : ℚ) * 100 else 0
  let recall' : ℚ :=
    if tp + fneg > 0 then (tp : ℚ) / ((tp : ℚ) + (fneg : ℚ)) * 100 else 0
  let precision : ℚ :=
    if tp + fp > 0 then (tp : ℚ) / ((tp : ℚ) + (fp : ℚ)) * 100 else 0
  let f1_score : ℚ :=
    if precision + recall' > 0 then
      2 * precision * recall' / (precision + recall')
    else 0
  let fpr : ℚ :=
    if fp + tn > 0 then (fp : ℚ) / ((fp : ℚ) + (tn : ℚ)) * 100 else 0
  let fnr : ℚ :=
    if fneg + tp > 0 then (fneg : ℚ) / ((fneg : ℚ) + (tp : ℚ)) * 100 else 0
  { total := total, tp := tp, tn := tn, fp := fp, fneg := fneg
    accuracy := accuracy, recall' := recall', precision := precision
    f1_score := f1_score, fpr := fpr, fnr := fnr }

/-! ## Theorems -/

/-- C4, amended.  For every input string the fast-path parser returns a
predicted value in `{"0","1"}`, returning `"0"` when the stripped text
matches neither the `label|type` split nor a leading `0`/`1` character
(the source implements no keyword heuristics); and when the stripped
input contains no `'|'` and is empty or starts with `'0'`, the result
is exactly `("0", "none")`.  (The original claim's clause "predicted
`"0"` implies attack_type `"none"`" fails when a `'|'` is present: the
type token is taken from after the `'|'` even when `predicted` falls
back to `"0"`.) -/
theorem parseFast_range_and_default (s : String) :
    ((parseFastDetectionResponse s).1 = "0" ∨
      (parseFastDetectionResponse s).1 = "1") ∧
    (pyContains (pyStrip s) '|' = false → pyFirstChar (pyStrip s) ≠ "0" →
      pyFirstChar (pyStrip s) ≠ "1" →
      (parseFastDetectionResponse s).1 = "0") ∧
    (pyContains (pyStrip s) '|' = false →
      (pyFirstChar (pyStrip s) = "0" ∨ pyNonEmpty (pyStrip s) = false) →
      parseFastDetectionResponse s = ("0", "none")) := by
  unfold parseFastDetectionResponse
  cases hc : pyContains (pyStrip s) '|' with
  | true =>
    refine ⟨?_, by simp [hc], by simp [hc]⟩
    simp only [hc, if_true]
    split
    · assumption
    · exact Or.inl rfl
  | false =>
    simp only [hc, Bool.false_eq_true, if_false]
    cases hne : pyNonEmpty (pyStrip s) with
    | false => simp [hne]
    | true =>
      simp only [hne, if_true]
      by_cases h0 : pyFirstChar (pyStrip s) = "0"
      · simp [h0]
      · by_cases h1 : pyFirstChar (pyStrip s) = "1"
        · simp [h0, h1]
        · simp [h0, h1]

/-- Witness for C4: the amended theorem at `"x"` (no `'|'`, leading
character neither `0` nor `1`, parses to `"0"`) and at `" 0 "` (strips
to `"0"`, parses to `("0", "none")`). -/
theorem parseFast_range_and_default_witness :
    (parseFastDetectionResponse "x").1 = "0" ∧
    parseFastDetectionResponse " 0 " = ("0", "none") :=
  ⟨(parseFast_range_and_default "x").2.1 (by decide) (by decide) (by decide),
    (parseFast_range_and_default " 0 ").2.2 (by decide)
      (Or.inl (by decide))⟩

/-- C4, counterexample to the claim as stated: on `"0|sqli"` the parser
returns `predicted = "0"` with `attack_type = "sqli" ≠ "none"`, and on
`"x"` it returns `("0", "unknown")`. -/
theorem parseFast_zero_attack_type_fails :
    parseFastDetectionResponse "0|sqli" = ("0", "sqli") ∧
    parseFastDetectionResponse "x" = ("0", "unknown") ∧
    ("sqli" ≠ "none" ∧ "unknown" ≠ "none") := by
  refine ⟨by decide, by decide, by decide, by decide⟩

/-- Each result whose `predicted` and `true_label` are both in
`{"0","1"}` falls in exactly one confusion-matrix cell. -/
theorem confusion_counts_sum (rs : List DetectionResult)
    (h : ∀ r ∈ rs, (r.predicted = "0" ∨ r.predicted = "1") ∧
      (r.true_label = "0" ∨ r.true_label = "1")) :
    tpCount rs + tnCount rs + fpCount rs + fnCount rs = rs.length := by
  induction rs with
  | nil => rfl
  | cons a l ih =>
    have ha := h a (List.mem_cons_self a l)
    have hl := ih (fun r hr => h r (List.mem_cons_of_mem a hr))
    simp only [tpCount, tnCount, fpCount, fnCount, List.countP_cons,
      List.length_cons] at *
    rcases ha with ⟨hp | hp, ht | ht⟩ <;> simp [hp, ht] <;> omega

/-- C3, amended.  For results whose `predicted` and `true_label` are in
`{"0","1"}`, the four confusion counts sum to the number of results,
and the reported accuracy equals `(TP+TN)/total * 100` exactly — the
source reports a percentage, not the bare ratio claimed. -/
theorem confusionIdentityAndAccuracy (rs : List DetectionResult)
    (h : ∀ r ∈ rs, (r.predicted = "0" ∨ r.predicted = "1") ∧
      (r.true_label = "0" ∨ r.true_label = "1")) :
    (calculateMetrics rs).tp + (calculateMetrics rs).tn +
        (calculateMetrics rs).fp + (calculateMetrics rs).fneg
      = (calculateMetrics rs).total ∧
    (calculateMetrics rs).accuracy
      = (((calculateMetrics rs).tp : ℚ) + ((calculateMetrics rs).tn : ℚ))
          / ((calculateMetrics rs).total : ℚ) * 100 := by
  constructor
  · simpa only [calculateMetrics] using confusion_counts_sum rs h
  · simp only [calculateMetrics]
    by_cases htot : rs.length > 0
    · rw [if_pos htot]
    · rw [if_neg htot]
      have h0 : rs.length = 0 := by omega
      simp [h0]

/-- A one-element result list used to settle C3 concretely. -/
def c3Result : DetectionResult :=
  { url := "/a", predicted := "1", attack_type := "sql_injection"
    rule_matched := [], detection_method := "model", reason := ""
    true_label := "1" }

/-- C3, counterexample to the claim as stated: on a single true-positive
result the reported accuracy is `100`, while `(TP+TN)/total = 1`; the
reported value is the percentage, not the ratio. -/
theorem accuracyExactClaimFails :
    (calculateMetrics [c3Result]).accuracy = 100 ∧
    (((calculateMetrics [c3Result]).tp : ℚ) +
        ((calculateMetrics [c3Result]).tn : ℚ))
      / ((calculateMetrics [c3Result]).total : ℚ) = 1 ∧
    (100 : ℚ) ≠ 1 := by
  refine ⟨?_, ?_, by norm_num⟩
  · norm_num [calculateMetrics, tpCount, tnCount, fpCount, fnCount, c3Result]
    decide
  · norm_num [calculateMetrics, tpCount, tnCount, fpCount, fnCount, c3Result]
    decide

/-- Witness for C3: the amended theorem applied to the concrete
one-element result list. -/
theorem confusionIdentityAndAccuracy_witness :
    (calculateMetrics [c3Result]).tp + (calculateMetrics [c3Result]).tn +
        (calculateMetrics [c3Result]).fp + (calculateMetrics [c3Result]).fneg
      = (calculateMetrics [c3Result]).total ∧
    (calculateMetrics [c3Result]).accuracy
      = (((calculateMetrics [c3Result]).tp : ℚ) +
          ((calculateMetrics [c3Result]).tn : ℚ))
          / ((calculateMetrics [c3Result]).total : ℚ) * 100 :=
  confusionIdentityAndAccuracy [c3Result] (by simp [c3Result])

/-- C7.  Computing the metrics never divides by zero: each derived
metric whose denominator is zero is reported as `0` (the embedding in
`ℚ` has no NaN, and every division in the source is guarded by the
positivity of its denominator; the empty list falls under the
`total = 0` case). -/
theorem metricsNeverDivideByZero (rs : List DetectionResult) :
    ((calculateMetrics rs).total = 0 → (calculateMetrics rs).accuracy = 0) ∧
    ((calculateMetrics rs).tp + (calculateMetrics rs).fneg = 0 →
      (calculateMetrics rs).recall' = 0) ∧
    ((calculateMetrics rs).tp + (calculateMetrics rs).fp = 0 →
      (calculateMetrics rs).precision = 0) ∧
    ((calculateMetrics rs).precision + (calculateMetrics rs).recall' = 0 →
      (calculateMetrics rs).f1_score = 0) ∧
    ((calculateMetrics rs).fp + (calculateMetrics rs).tn = 0 →
      (calculateMetrics rs).fpr = 0) ∧
    ((calculateMetrics rs).fneg + (calculateMetrics rs).tp = 0 →
      (calculateMetrics rs).fnr = 0) := by
  simp only [calculateMetrics]
  refine ⟨fun h => ?_, fun h => ?_, fun h => ?_, fun h => ?_,
    fun h => ?_, fun h => ?_⟩
  · rw [if_neg (by omega)]
  · rw [if_neg (by omega)]
  · rw [if_neg (by omega)]
  · rw [if_neg (by rw [h]; exact lt_irrefl 0)]
  · rw [if_neg (by omega)]
  · rw [if_neg (by omega)]

/-- Witness for C7: at the empty result list every metric is `0`. -/
theorem metricsNeverDivideByZero_witness :
    (calculateMetrics []).accuracy = 0 ∧ (calculateMetrics []).recall' = 0 ∧
    (calculateMetrics []).precision = 0 ∧ (calculateMetrics []).f1_score = 0 ∧
    (calculateMetrics []).fpr = 0 ∧ (calculateMetrics []).fnr = 0 := by
  have h := metricsNeverDivideByZero []
  exact ⟨h.1 (by rfl), h.2.1 (by rfl), h.2.2.1 (by rfl),
    h.2.2.2.1 (by simp [calculateMetrics, tpCount, tnCount, fpCount, fnCount]),
    h.2.2.2.2.1 (by rfl),
    h.2.2.2.2.2 (by rfl)⟩

/-- `findSome?` skips a prefix on which the function yields `none`. -/
theorem findSome?_skip_unmatched {α β : Type} (f : α → Option β)
    (pre : List α) (hpre : ∀ a ∈ pre, f a = none) (l : List α) :
    (pre ++ l).findSome? f = l.findSome? f := by
  induction pre with
  | nil => rfl
  | cons a as ih =>
    have ha : f a = none := hpre a (List.mem_cons_self a as)
    simp only [List.cons_append, List.findSome?_cons, ha]
    exact ih (fun x hx => hpre x (List.mem_cons_of_mem a hx))

/-- A rule hit carries the rule's configured attack type. -/
theorem matchUrl_attack_type (r : Rule) (url : String) (info : MatchInfo)
    (hr : r.matchUrl url = some info) : info.attack_type = r.attack_type := by
  unfold Rule.matchUrl at hr
  rcases Option.map_eq_some'.mp hr with ⟨t, _, rfl⟩
  rfl

/-- C1.  When the engine is enabled and `r` is the first rule of the
anomalous set matching the URL, Stage-1 detection returns
`predicted = "1"`, `detection_method = "rule_anomalous"` and
`attack_type` equal to `r`'s configured type, making no classifier
call — for every detector, hence regardless of RAG or model
availability. -/
theorem ruleAnomalousPriority (d : HybridDetector) (url : String)
    (pre post : List Rule) (r : Rule) (info : MatchInfo)
    (henabled : d.rule_engine.enabled = true)
    (hrules : d.rule_engine.anomalous_rules = pre ++ r :: post)
    (hpre : ∀ r' ∈ pre, r'.matchUrl url = none)
    (hr : r.matchUrl url = some info) :
    d.detect url =
      (.ok { url := url, predicted := "1", attack_type := r.attack_type
             rule_matched := [info], detection_method := "rule_anomalous"
             reason := "触发异常规则: " ++ info.rule_name }, 0) := by
  have hfind : d.rule_engine.anomalous_rules.findSome?
      (fun ru => ru.matchUrl url) = some info := by
    rw [hrules, findSome?_skip_unmatched _ pre hpre]
    simp [List.findSome?_cons, hr]
  have hdet : d.rule_engine.detect url = (some "1", [info], "anomalous") := by
    unfold RuleEngine.detect
    rw [henabled]
    simp [hfind]
  have hcheck : d.rule_engine.check url =
      { matched := true, is_normal := some false, rules := [info] } := by
    unfold RuleEngine.check
    rw [hdet]
    rfl
  have hatk := matchUrl_attack_type r url info hr
  unfold HybridDetector.detect
  rw [hcheck]
  simp [hatk]

/-- The concrete anomalous rule used to witness C1. -/
def c1Rule : Rule :=
  { rule_id := "A001", name := "sql-or-1-1"
    search := fun u => if u = "/login?id=1-or-1=1" then some "or-1=1" else none
    attack_type := "sql_injection", severity := "high", description := "d" }

/-- The concrete detector used to witness C1: one anomalous rule, RAG
flagged on but without an engine, model irrelevant. -/
def c1Detector : HybridDetector :=
  { model := fun _ => "1|xss"
    rule_engine :=
      { normal_rules := [], anomalous_rules := [c1Rule], enabled := true }
    use_rag := true, rag_engine := none }

/-- The match dictionary produced by `c1Rule` on the witness URL. -/
def c1Info : MatchInfo :=
  { rule_id := "A001", rule_name := "sql-or-1-1"
    attack_type := "sql_injection", severity := "high"
    matched_text := "or-1=1", description := "d" }

/-- Witness for C1: the concrete detector on a URL hitting the
anomalous rule. -/
theorem ruleAnomalousPriority_witness :
    c1Detector.detect "/login?id=1-or-1=1" =
      (.ok { url := "/login?id=1-or-1=1", predicted := "1"
             attack_type := "sql_injection"
             rule_matched := [c1Info]
             detection_method := "rule_anomalous"
             reason := "触发异常规则: sql-or-1-1" }, 0) :=
  ruleAnomalousPriority c1Detector "/login?id=1-or-1=1" [] [] c1Rule c1Info
    rfl rfl (by simp) (by decide)

/-- C10.  A detector configured with `use_rag = true` but
`rag.enabled = false` has `rag_engine = none`; for every URL matching
no rule, `detect` reads the never-assigned local `similar_cases` while
building the result and raises `NameError` — after having already made
the one classifier call. -/
theorem useRagWithoutRag_nameError (model : String → String)
    (re : RuleEngine) (config : Config) (store : Option VectorStore)
    (url : String)
    (huse : config.fast_detection.use_rag = true)
    (hrag : config.rag.enabled = false)
    (hnorule : (re.check url).matched = false) :
    (HybridDetector.ofConfig model re config store).detect url =
      (.error .nameError, 1) := by
  have hd : HybridDetector.ofConfig model re config store =
      { model := model, rule_engine := re, use_rag := true
        rag_engine := none } := by
    unfold HybridDetector.ofConfig
    rw [huse, hrag]
    simp
  rw [hd]
  simp only [HybridDetector.detect, hnorule, Bool.false_eq_true, if_false,
    Option.isSome_none, Bool.and_false, HybridDetector.modelStage]
  simp

/-- The rule-free detector used to witness C10, built through
`ofConfig` with `use_rag = true` and `rag.enabled = false`. -/
def c10Detector : HybridDetector :=
  HybridDetector.ofConfig (fun _ => "0")
    { normal_rules := [], anomalous_rules := [], enabled := true }
    { fast_detection := { use_rag := true }, rag := {} } none

/-- Witness for C10: the concrete misconfigured detector raises
`NameError` on a URL matching no rule. -/
theorem useRagWithoutRag_nameError_witness :
    c10Detector.detect "/index.html" = (.error .nameError, 1) :=
  useRagWithoutRag_nameError (fun _ => "0")
    { normal_rules := [], anomalous_rules := [], enabled := true }
    { fast_detection := { use_rag := true }, rag := {} } none
    "/index.html" rfl rfl (by decide)

/-- General form of the RAG similarity shortcut: no rule match, RAG on
with an engine, retrieval non-empty, best case at or above threshold.
The detector terminates at stage 2 with the source's
`label == 'attack'` test and `'similar_' + label` attack type, the
retrieved cases as evidence, and zero classifier calls. -/
theorem detect_rag_branch (d : HybridDetector) (url : String)
    (eng : RAGEngine) (best : Case) (rest : List Case)
    (hnorule : (d.rule_engine.check url).matched = false)
    (huse : d.use_rag = true)
    (heng : d.rag_engine = some eng)
    (hcases : eng.retrieveSimilarCases url d.rag_top_k = best :: rest)
    (hthr : d.rag_threshold ≤ best.similarity_score) :
    d.detect url =
      (.ok { url := url
             predicted := if best.label = "attack" then "1" else "0"
             attack_type := "similar_" ++ best.label
             rule_matched := []
             similar_cases := best :: rest
             detection_method := "rag_similarity"
             confidence := best.similarity_score
             reason := "与已知" ++ best.label ++ "案例高度相似" }, 0) := by
  have hchk : d.checkRagSimilarity url =
      { matched := true
        predicted := if best.label = "attack" then "1" else "0"
        attack_type := "similar_" ++ best.label
        similar_cases := best :: rest
        confidence := best.similarity_score
        reason := "与已知" ++ best.label ++ "案例高度相似" } := by
    unfold HybridDetector.checkRagSimilarity
    rw [heng]
    simp only [hcases]
    rw [if_pos hthr]
  simp only [HybridDetector.detect, hnorule, Bool.false_eq_true, if_false,
    huse, heng, Option.isSome_some, Bool.and_self, if_true, hchk]

/-- The one-case vector store backing the C2 witness. -/
def c2Store : VectorStore :=
  { encode := fun _ => [1], index := some [[1]]
    metadata := [{ type := "url_case", url := "/evil?cmd=rm"
                   label := "attack" }] }

/-- The rule-free RAG-enabled detector backing the C2 witness. -/
def c2Detector : HybridDetector :=
  { model := fun _ => "0"
    rule_engine := { normal_rules := [], anomalous_rules := []
                     enabled := true }
    use_rag := true
    rag_engine := some { vector_store := some c2Store } }

/-- Retrieval against `c2Store` returns its single case with
similarity `1`. -/
theorem c2_retrieve_eval :
    RAGEngine.retrieveSimilarCases { vector_store := some c2Store }
        "/probe" 3
      = [{ url := "/evil?cmd=rm", label := "attack"
           similarity_score := 1 }] := by
  norm_num [RAGEngine.retrieveSimilarCases, VectorStore.searchInUrlCasesOnly,
    VectorStore.searchPartition, c2Store, dotQ, argsortAsc, argRel,
    List.insertionSort, List.orderedInsert, List.range_succ]

/-- C2, amended.  For a URL matching no rule, with RAG enabled and the
best retrieved case at or above the threshold, Stage-1 terminates with
`detection_method = "rag_similarity"`, the retrieved cases as evidence
and no classifier call; but `predicted` is `"1"` iff the best case's
label is exactly `"attack"` (not "anything other than `normal`"), and
`attack_type` is `"similar_" ++ label`, not the bare label. -/
theorem ragSimilarityShortcut (d : HybridDetector) (url : String)
    (eng : RAGEngine) (best : Case) (rest : List Case)
    (hnorule : (d.rule_engine.check url).matched = false)
    (huse : d.use_rag = true)
    (heng : d.rag_engine = some eng)
    (hcases : eng.retrieveSimilarCases url d.rag_top_k = best :: rest)
    (hthr : d.rag_threshold ≤ best.similarity_score) :
    d.detect url =
      (.ok { url := url
             predicted := if best.label = "attack" then "1" else "0"
             attack_type := "similar_" ++ best.label
             rule_matched := []
             similar_cases := best :: rest
             detection_method := "rag_similarity"
             confidence := best.similarity_score
             reason := "与已知" ++ best.label ++ "案例高度相似" }, 0) :=
  detect_rag_branch d url eng best rest hnorule huse heng hcases hthr

/-- Witness for C2: the concrete RAG-enabled detector short-circuits on
its single stored attack case with zero classifier calls. -/
theorem ragSimilarityShortcut_witness :
    c2Detector.detect "/probe" =
      (.ok { url := "/probe", predicted := "1"
             attack_type := "similar_attack"
             rule_matched := []
             similar_cases := [{ url := "/evil?cmd=rm", label := "attack"
                                 similarity_score := 1 }]
             detection_method := "rag_similarity", confidence := 1
             reason := "与已知attack案例高度相似" }, 0) := by
  have h := ragSimilarityShortcut c2Detector "/probe"
    { vector_store := some c2Store }
    { url := "/evil?cmd=rm", label := "attack", similarity_score := 1 } []
    (by decide) rfl rfl c2_retrieve_eval (by norm_num [c2Detector])
  simpa using h

/-- The one-case vector store backing the C2 counterexample: the stored
label `"xss"` is neither `"attack"` nor `"normal"`. -/
def c2xStore : VectorStore :=
  { encode := fun _ => [1], index := some [[1]]
    metadata := [{ type := "url_case", url := "/vuln?q=script"
                   label := "xss" }] }

/-- The rule-free RAG-enabled detector backing the C2 counterexample. -/
def c2xDetector : HybridDetector :=
  { model := fun _ => "0"
    rule_engine := { normal_rules := [], anomalous_rules := []
                     enabled := true }
    use_rag := true
    rag_engine := some { vector_store := some c2xStore } }

/-- Retrieval against `c2xStore` returns its single `"xss"` case with
similarity `1`. -/
theorem c2x_retrieve_eval :
    RAGEngine.retrieveSimilarCases { vector_store := some c2xStore }
        "/probe2" 3
      = [{ url := "/vuln?q=script", label := "xss"
           similarity_score := 1 }] := by
  norm_num [RAGEngine.retrieveSimilarCases, VectorStore.searchInUrlCasesOnly,
    VectorStore.searchPartition, c2xStore, dotQ, argsortAsc, argRel,
    List.insertionSort, List.orderedInsert, List.range_succ]

/-- C2, counterexample to the claim as stated: the best case has label
`"xss"` (≠ `"normal"`) with similarity `1 ≥ 0.85`, yet the detector
returns `predicted = "0"` (the source tests `label == 'attack'`) and
`attack_type = "similar_xss"` (not the label itself). -/
theorem ragShortcutLabelClaimFails :
    c2xDetector.detect "/probe2" =
      (.ok { url := "/probe2", predicted := "0"
             attack_type := "similar_xss"
             rule_matched := []
             similar_cases := [{ url := "/vuln?q=script", label := "xss"
                                 similarity_score := 1 }]
             detection_method := "rag_similarity", confidence := 1
             reason := "与已知xss案例高度相似" }, 0) ∧
    ("xss" ≠ "normal" ∧ "0" ≠ "1" ∧ "similar_xss" ≠ "xss") := by
  have h := detect_rag_branch c2xDetector "/probe2"
    { vector_store := some c2xStore }
    { url := "/vuln?q=script", label := "xss", similarity_score := 1 } []
    (by decide) rfl rfl c2x_retrieve_eval (by norm_num [c2xDetector])
  exact ⟨by simpa using h, by decide, by decide, by decide⟩

/-- Loading a normal-rule list that fails at config `c` keeps exactly
the rules loaded before `c` and reports the exception. -/
theorem loadNormalRules_append_fail (compile : ReCompile)
    (pre : List RuleConfig) (c : RuleConfig) (post : List RuleConfig)
    (hpre : (loadNormalRules compile pre).2 = true)
    (hc : compile c.pattern = none) :
    loadNormalRules compile (pre ++ c :: post) =
      ((loadNormalRules compile pre).1, false) := by
  induction pre with
  | nil =>
    simp only [List.nil_append, loadNormalRules, mkRule, hc, Option.map_none']
  | cons a as ih =>
    simp only [loadNormalRules, List.cons_append] at hpre ⊢
    cases hm : mkRule compile a.id a.name a.pattern
        (a.attack_type.getD "none") (a.severity.getD "safe")
        a.description with
    | none =>
      rw [hm] at hpre
    | some r =>
      rw [hm] at hpre
      simp only at hpre
      simp only [List.append_eq]
      rw [ih hpre]

/-- C5, amended.  A rule pattern that fails to compile raises inside
the per-file loading loop: the rules appended before it are kept, but
the malformed rule and every rule after it in the same set are
dropped.  The exception is caught at the rule-set level, so loading is
not fatal: the failure is recorded with a warning and the other rule
set still loads, on an enabled engine. -/
theorem malformedPatternSkipsRest (compile : ReCompile)
    (pre : List RuleConfig) (c : RuleConfig) (post acfgs : List RuleConfig)
    (hpre : (loadNormalRules compile pre).2 = true)
    (hc : compile c.pattern = none) :
    (loadRuleEngine compile true (pre ++ c :: post) acfgs).engine.normal_rules
        = (loadNormalRules compile pre).1 ∧
    (loadRuleEngine compile true (pre ++ c :: post)
        acfgs).normal_load_failed = true ∧
    (loadRuleEngine compile true (pre ++ c :: post)
        acfgs).engine.anomalous_rules
        = (loadAnomalousRules compile acfgs).1 ∧
    (loadRuleEngine compile true (pre ++ c :: post) acfgs).engine.enabled
        = true := by
  have h := loadNormalRules_append_fail compile pre c post hpre hc
  simp [loadRuleEngine, h]

/-- Stand-in for `re.compile`: the pattern `"["` raises `re.error` in
Python's `re` module; other patterns compile. -/
def badCompile : ReCompile :=
  fun p => if p = "[" then none else some (fun _ => none)

/-- A well-formed rule config. -/
def cfgA : RuleConfig := { id := "N1", name := "a", pattern := "a" }

/-- The rule config whose pattern fails to compile. -/
def cfgBad : RuleConfig := { id := "N2", name := "bad", pattern := "[" }

/-- A second well-formed rule config, listed after the malformed one. -/
def cfgB : RuleConfig := { id := "N3", name := "b", pattern := "b" }

/-- C5, counterexample to the claim as stated: with rule set
`[cfgA, cfgBad, cfgB]` where only `cfgBad` is malformed, the loaded
engine holds one normal rule, not the two the claim promises (`cfgB`,
listed after the malformed rule, is lost). -/
theorem malformedRuleClaimFails :
    (loadRuleEngine badCompile true [cfgA, cfgBad, cfgB]
        []).engine.normal_rules.length = 1 ∧
    (loadRuleEngine badCompile true [cfgA, cfgBad, cfgB]
        []).normal_load_failed = true ∧
    (1 : ℕ) ≠ 2 := by
  refine ⟨by rfl, by rfl, by decide⟩

/-- Witness for C5: the amended theorem at the concrete three-entry
rule set split around its malformed middle entry. -/
theorem malformedPatternSkipsRest_witness :
    (loadRuleEngine badCompile true ([cfgA] ++ cfgBad :: [cfgB])
        []).engine.normal_rules
        = (loadNormalRules badCompile [cfgA]).1 ∧
    (loadRuleEngine badCompile true ([cfgA] ++ cfgBad :: [cfgB])
        []).normal_load_failed = true ∧
    (loadRuleEngine badCompile true ([cfgA] ++ cfgBad :: [cfgB])
        []).engine.anomalous_rules
        = (loadAnomalousRules badCompile []).1 ∧
    (loadRuleEngine badCompile true ([cfgA] ++ cfgBad :: [cfgB])
        []).engine.enabled = true :=
  malformedPatternSkipsRest badCompile [cfgA] cfgBad [cfgB] []
    (by rfl) (by rfl)

/-- C6, amended.  There is no per-URL exception boundary: when
`query_func` raises on a URL, `process_file`'s loop re-raises that
exception, discarding the results of the URLs before it and never
reaching the URLs after it. -/
theorem perItemExceptionAborts (label : String)
    (qf : String → Except DetectErr DetectionResult)
    (pre : List String) (url : String) (rest : List String) (e : DetectErr)
    (hpre : ∀ u ∈ pre, ∃ r, qf u = .ok r)
    (hurl : qf url = .error e) :
    processLines (pre ++ url :: rest) label qf = .error e := by
  induction pre with
  | nil =>
    simp only [List.nil_append, processLines, hurl]
    rfl
  | cons a as ih =>
    obtain ⟨r, hr⟩ := hpre a (List.mem_cons_self a as)
    have hrest := ih (fun u hu => hpre u (List.mem_cons_of_mem a hu))
    simp only [List.cons_append, processLines, hr, List.append_eq, hrest]
    rfl

/-- The detector used in the C6 counterexample: `use_rag = true` with
`rag.enabled = false`, so stage 3 raises `NameError` on any URL that
matches no rule (there are no rules at all). -/
def c6Detector : HybridDetector :=
  HybridDetector.ofConfig (fun _ => "0")
    { normal_rules := [], anomalous_rules := [], enabled := true }
    { fast_detection := { use_rag := true }, rag := {} } none

/-- C6, counterexample to the claim as stated: a stage failure inside
the detector propagates through the per-URL loop and aborts the whole
batch — `process_file` on two URLs returns the `NameError` instead of
any result list. -/
theorem perItemCatchClaimFails :
    processFile ["/a", "/b"] "attack" (fun u => (c6Detector.detect u).1)
      = .error .nameError := by
  rfl

/-- The stubbed per-URL decision used to witness C6: succeeds except on
`"/b"`. -/
def c6okResult : DetectionResult :=
  { url := "/a", predicted := "0", attack_type := "none"
    rule_matched := [], detection_method := "model", reason := "" }

/-- The stub `query_func` of the C6 witness. -/
def c6qf : String → Except DetectErr DetectionResult :=
  fun u => if u = "/b" then .error .nameError else .ok c6okResult

/-- Witness for C6: the amended theorem on a concrete three-URL batch
whose middle URL raises. -/
theorem perItemExceptionAborts_witness :
    processLines (["/a"] ++ "/b" :: ["/c"]) "attack" c6qf
      = .error .nameError :=
  perItemExceptionAborts "attack" c6qf ["/a"] "/b" ["/c"] .nameError
    (fun u hu => by
      simp only [List.mem_singleton] at hu
      subst hu
      exact ⟨c6okResult, rfl⟩)
    (by rfl)

/-- Strict form of `argRel`: positions are distinct, so equal values
are ordered by strictly increasing index. -/
def argRelStrict (xs : List ℚ) (i j : ℕ) : Prop :=
  xs.getD i 0 < xs.getD j 0 ∨ (xs.getD i 0 = xs.getD j 0 ∧ i < j)

/-- The argsort output is a permutation of the index range. -/
theorem argsortAsc_perm (xs : List ℚ) :
    List.Perm (argsortAsc xs) (List.range xs.length) :=
  List.perm_insertionSort _ _

/-- Every argsort output position indexes into `xs`. -/
theorem argsortAsc_mem_lt (xs : List ℚ) (j : ℕ) (hj : j ∈ argsortAsc xs) :
    j < xs.length := by
  have := (argsortAsc_perm xs).mem_iff.mp hj
  simpa [List.mem_range] using this

/-- The argsort output has no duplicate positions. -/
theorem argsortAsc_nodup (xs : List ℚ) : (argsortAsc xs).Nodup :=
  (argsortAsc_perm xs).symm.nodup (List.nodup_range _)

/-- The argsort output is sorted for the stable ascending order. -/
theorem argsortAsc_sorted (xs : List ℚ) :
    (argsortAsc xs).Sorted (argRel xs) :=
  List.sorted_insertionSort _ _

/-- The argsort output is strictly sorted: ascending values, with equal
values in strictly ascending index order. -/
theorem argsortAsc_pairwise_strict (xs : List ℚ) :
    (argsortAsc xs).Pairwise (argRelStrict xs) := by
  have hs : (argsortAsc xs).Pairwise (argRel xs) := argsortAsc_sorted xs
  have hn : (argsortAsc xs).Pairwise (fun i j => i ≠ j) := argsortAsc_nodup xs
  refine (hs.and hn).imp ?_
  rintro i j ⟨hlt | ⟨heq, hle⟩, hne⟩
  · exact Or.inl hlt
  · exact Or.inr ⟨heq, lt_of_le_of_ne hle hne⟩

/-- Ranking order of the final search results: strictly descending
similarity, equal similarities ordered by strictly descending original
insertion position. -/
def rankedAfter (a b : ℕ × ℚ) : Prop :=
  b.2 < a.2 ∨ (a.2 = b.2 ∧ b.1 < a.1)

/-- A strictly increasing index list is strictly monotone under `getD`
at in-range positions. -/
theorem pairwise_lt_getD_mono (l : List ℕ) (hmono : l.Pairwise (· < ·))
    (i j : ℕ) (hij : i < j) (hj : j < l.length) :
    l.getD i 0 < l.getD j 0 := by
  have hi : i < l.length := lt_trans hij hj
  have h := List.pairwise_iff_getElem.mp hmono i j hi hj hij
  rw [List.getD_eq_getElem l 0 hi, List.getD_eq_getElem l 0 hj]
  exact h

/-- Core ranking fact for the partition search: mapping the truncated
reversed argsort through (original index, similarity) yields a list
pairwise-ordered by `rankedAfter`, provided the index list is strictly
increasing and as long as the similarity list. -/
theorem ranked_core (indices : List ℕ) (sims : List ℚ) (k : ℕ)
    (hlen : sims.length = indices.length)
    (hmono : indices.Pairwise (· < ·)) :
    (((argsortAsc sims).reverse.take k).map
      (fun idx => (indices.getD idx 0, sims.getD idx 0))).Pairwise
      rankedAfter := by
  have h1 : (argsortAsc sims).Pairwise (argRelStrict sims) :=
    argsortAsc_pairwise_strict sims
  have h2 : (argsortAsc sims).reverse.Pairwise
      (fun i j => argRelStrict sims j i) :=
    List.pairwise_reverse.mpr h1
  have h3 : ((argsortAsc sims).reverse.take k).Pairwise
      (fun i j => argRelStrict sims j i) :=
    h2.sublist (List.take_sublist k _)
  refine List.pairwise_map.mpr (h3.imp_of_mem ?_)
  intro i j hi hj hr
  have hi' : i < sims.length :=
    argsortAsc_mem_lt sims i
      (List.mem_reverse.mp (List.mem_of_mem_take hi))
  have hj' : j < sims.length :=
    argsortAsc_mem_lt sims j
      (List.mem_reverse.mp (List.mem_of_mem_take hj))
  rcases hr with hlt | ⟨heq, hltidx⟩
  · exact Or.inl hlt
  · refine Or.inr ⟨heq.symm, ?_⟩
    exact pairwise_lt_getD_mono indices hmono j i hltidx (hlen ▸ hi')

/-- The filtered index list of a partition search is strictly
increasing. -/
theorem partIndices_mono (n : ℕ) (p : ℕ → Bool) :
    ((List.range n).filter p).Pairwise (· < ·) :=
  (List.pairwise_lt_range n).filter p

/-- Every partition search result list is ordered by `rankedAfter`. -/
theorem searchPartition_pairwise (s : VectorStore) (tag q : String)
    (k : ℕ) : (s.searchPartition tag q k).Pairwise rankedAfter := by
  unfold VectorStore.searchPartition
  cases s.index with
  | none => exact List.Pairwise.nil
  | some vecs =>
    by_cases hemp : ((List.range s.metadata.length).filter
        (fun i => (s.metadata.getD i default).type == tag)).isEmpty = true
    · simp only [hemp, if_true]
      exact List.Pairwise.nil
    · simp only [hemp, Bool.false_eq_true, if_false]
      apply ranked_core
      · simp
      · exact partIndices_mono _ _

/-- C8, amended.  Both partition-restricted searches return a list
sorted by strictly descending similarity; results with equal
similarity appear in strictly descending insertion position — the
reverse of the insertion order claimed, because the source argsorts
ascending (stable) and then reverses the whole order. -/
theorem searchRankingOrder (s : VectorStore) (q : String) (k : ℕ) :
    (s.searchInUrlCasesOnly q k).Pairwise rankedAfter ∧
    (s.searchInKnowledgeOnly q k).Pairwise rankedAfter :=
  ⟨searchPartition_pairwise s "url_case" q k,
    searchPartition_pairwise s "knowledge" q k⟩

/-- The two-case store backing the C8 counterexample: both records are
`url_case`-tagged with identical vectors, so their similarities tie. -/
def c8Store : VectorStore :=
  { encode := fun _ => [1], index := some [[1], [1]]
    metadata := [{ type := "url_case", url := "/u0", label := "normal" },
                 { type := "url_case", url := "/u1", label := "attack" }] }

/-- C8, counterexample to the claim as stated: with two equal-similarity
records inserted at positions 0 and 1, the search returns position 1
first — reverse insertion order, not insertion order. -/
theorem searchTieOrderClaimFails :
    c8Store.searchInUrlCasesOnly "/q" 2 = [(1, 1), (0, 1)] ∧
    c8Store.searchInUrlCasesOnly "/q" 2 ≠ [(0, 1), (1, 1)] := by
  have h : c8Store.searchInUrlCasesOnly "/q" 2 = [(1, 1), (0, 1)] := by
    norm_num [VectorStore.searchInUrlCasesOnly, VectorStore.searchPartition,
      c8Store, dotQ, argsortAsc, argRel, List.insertionSort,
      List.orderedInsert, List.range_succ]
  refine ⟨h, ?_⟩
  rw [h]
  simp

/-- Core membership fact for the partition search: every returned
original index comes from the searched index list. -/
theorem core_mem_indices (indices : List ℕ) (sims : List ℚ) (k : ℕ)
    (hlen : sims.length = indices.length) (p : ℕ × ℚ)
    (hp : p ∈ ((argsortAsc sims).reverse.take k).map
      (fun idx => (indices.getD idx 0, sims.getD idx 0))) :
    p.1 ∈ indices := by
  obtain ⟨idx, hmemtake, hpf⟩ := List.mem_map.mp hp
  have hlt : idx < sims.length :=
    argsortAsc_mem_lt sims idx
      (List.mem_reverse.mp (List.mem_of_mem_take hmemtake))
  have hlt2 : idx < indices.length := hlen ▸ hlt
  have hmem : indices.getD idx 0 ∈ indices := by
    rw [List.getD_eq_getElem indices 0 hlt2]
    exact List.getElem_mem _
  rw [← hpf]
  exact hmem

/-- A partition search only returns indices whose metadata entry
carries the searched tag. -/
theorem searchPartition_mem_tag (s : VectorStore) (tag q : String)
    (k : ℕ) (p : ℕ × ℚ) (hp : p ∈ s.searchPartition tag q k) :
    (s.metadata.getD p.1 default).type = tag := by
  unfold VectorStore.searchPartition at hp
  cases hidx : s.index with
  | none =>
    rw [hidx] at hp
    simp at hp
  | some vecs =>
    rw [hidx] at hp
    by_cases hemp : ((List.range s.metadata.length).filter
        (fun i => (s.metadata.getD i default).type == tag)).isEmpty = true
    · simp only [hemp, if_true] at hp
      simp at hp
    · simp only [hemp, Bool.false_eq_true, if_false] at hp
      have hmem : p.1 ∈ (List.range s.metadata.length).filter
          (fun i => (s.metadata.getD i default).type == tag) :=
        core_mem_indices _ _ k (by simp) p hp
      exact beq_iff_eq.mp (List.mem_filter.mp hmem).2

/-- C9.  A case search only returns positions whose metadata is tagged
`url_case`, a knowledge search only positions tagged `knowledge`, and
every case assembled by `retrieve_similar_cases` is the projection of
a `url_case`-tagged record — no result crosses partitions within the
shared physical index. -/
theorem searchPartitionPurity (s : VectorStore) (q : String) (k : ℕ) :
    (∀ p ∈ s.searchInUrlCasesOnly q k,
      (s.metadata.getD p.1 default).type = "url_case") ∧
    (∀ p ∈ s.searchInKnowledgeOnly q k,
      (s.metadata.getD p.1 default).type = "knowledge") ∧
    (∀ c ∈ RAGEngine.retrieveSimilarCases { vector_store := some s } q k,
      ∃ i, (s.metadata.getD i default).type = "url_case" ∧
        c.url = (s.metadata.getD i default).url ∧
        c.label = (s.metadata.getD i default).label) := by
  refine ⟨fun p hp => searchPartition_mem_tag s "url_case" q k p hp,
    fun p hp => searchPartition_mem_tag s "knowledge" q k p hp, ?_⟩
  intro c hc
  unfold RAGEngine.retrieveSimilarCases at hc
  by_cases hidx : s.index.isNone = true
  · simp only [hidx, if_true] at hc
    simp at hc
  · simp only [hidx, Bool.false_eq_true, if_false] at hc
    obtain ⟨p, hp, hpc⟩ := List.mem_map.mp hc
    refine ⟨p.1, searchPartition_mem_tag s "url_case" q k p hp, ?_, ?_⟩
    · rw [← hpc]
    · rw [← hpc]

/-- The mixed-partition store backing the C9 witness: one knowledge
chunk at position 0, one URL case at position 1. -/
def c9Store : VectorStore :=
  { encode := fun _ => [1], index := some [[1], [1]]
    metadata := [{ type := "knowledge", attack_id := "sqli"
                   source := "sqli.txt" },
                 { type := "url_case", url := "/w", label := "normal" }] }

/-- Witness for C9: on the mixed store the case search returns exactly
position 1 (the `url_case` record) and the knowledge search exactly
position 0 (the `knowledge` record), and the theorem applies to both. -/
theorem searchPartitionPurity_witness :
    (c9Store.metadata.getD 1 default).type = "url_case" ∧
    (c9Store.metadata.getD 0 default).type = "knowledge" := by
  have h := searchPartitionPurity c9Store "/q" 1
  have hfiltU : List.filter (fun i =>
      (([{ type := "knowledge", url := "", label := "", attack_id := "sqli"
           source := "sqli.txt" },
         { type := "url_case", url := "/w", label := "normal"
           attack_id := "", source := "" }] : List Meta)[i]?.getD
          default).type == "url_case") [0, 1] = [1] := by decide
  have hfiltK : List.filter (fun i =>
      (([{ type := "knowledge", url := "", label := "", attack_id := "sqli"
           source := "sqli.txt" },
         { type := "url_case", url := "/w", label := "normal"
           attack_id := "", source := "" }] : List Meta)[i]?.getD
          default).type == "knowledge") [0, 1] = [0] := by decide
  have hs : c9Store.searchInUrlCasesOnly "/q" 1 = [(1, 1)] := by
    norm_num [VectorStore.searchInUrlCasesOnly, VectorStore.searchPartition,
      c9Store, dotQ, argsortAsc, argRel, List.insertionSort,
      List.orderedInsert, List.range_succ, hfiltU]
  have hk : c9Store.searchInKnowledgeOnly "/q" 1 = [(0, 1)] := by
    norm_num [VectorStore.searchInKnowledgeOnly, VectorStore.searchPartition,
      c9Store, dotQ, argsortAsc, argRel, List.insertionSort,
      List.orderedInsert, List.range_succ, hfiltK]
  exact ⟨h.1 (1, 1) (by rw [hs]; exact List.mem_singleton.mpr rfl),
    h.2.1 (0, 1) (by rw [hk]; exact List.mem_singleton.mpr rfl)⟩

end UrlAnalyse
